import Mathlib

/-!
Shallow embedding of the pion ICE agent core (agent.go) and the NAT 1:1
external-IP mapper, with theorems checking the specification's claims.

Modelling conventions:
* `time.Time` / `time.Duration` are modelled as `Nat` (milliseconds); Go's
  `time.Since(t)` becomes truncated subtraction `now - t`, which agrees with
  the Go code on all monotone traces (timestamps never exceed `now`).
* Go maps `map[NetworkType][]Candidate` are modelled as total functions
  `NetworkType → List Candidate`; a missing key is the empty list, which has
  the same observable behaviour as Go's nil slice for every operation below.
* External collaborators (sockets, STUN wire I/O, mDNS, muxes, notifiers,
  loggers, the selector's internals) perform no mutation of the agent fields
  modelled here; calls to them are noted in comments and elided.
* The task loop serializes all mutations; each loop task is modelled as a
  pure function `Agent → Agent`, and quiescent moments are the states between
  those functions.
-/

namespace IceSpec

/-- Connection states of the agent (New, Checking, Connected, Disconnected,
Failed, Closed). -/
inductive ConnectionState
  | new | checking | connected | disconnected | failed | closed
deriving DecidableEq

/-- Gathering states (New, Gathering, Complete). -/
inductive GatheringState
  | new | gathering | complete
deriving DecidableEq

/-- Network types UDP4/UDP6/TCP4/TCP6. -/
inductive NetworkType
  | udp4 | udp6 | tcp4 | tcp6
deriving DecidableEq, Fintype

/-- NetworkType.IsTCP from the transport package: true for the TCP variants. -/
def NetworkType.isTCP : NetworkType → Bool
  | .tcp4 => true
  | .tcp6 => true
  | _ => false

/-- TCP candidate types (unspecified, active, passive, simultaneous-open). -/
inductive TCPType
  | unspecified | active | passive | simultaneousOpen
deriving DecidableEq

/-- Candidate variants. -/
inductive CandidateType
  | unspecified | host | srflx | prflx | relay
deriving DecidableEq

/-- Multicast DNS modes. -/
inductive MulticastDNSMode
  | disabled | queryOnly | queryAndGather
deriving DecidableEq

/-- Modelled from the spec: the Candidate value object (the candidate
implementations live outside the supplied source). Fields are the attributes
the agent core consults: variant, network type, TCP type, address, port,
component, foundation, and the last-sent / last-received monotonic
timestamps. -/
structure Candidate where
  candidateType : CandidateType
  networkType : NetworkType
  tcpType : TCPType
  address : String
  port : Nat
  component : Nat
  foundation : String
  lastSent : Nat
  lastReceived : Nat
deriving DecidableEq

/-- Modelled from the spec: Candidate.Equal. The spec, section 3: candidates
are equality-compared by foundation + address + port + component (timestamps
and the transport handle are ignored). -/
def Candidate.Equal (x y : Candidate) : Bool :=
  x.foundation == y.foundation && x.address == y.address &&
    x.port == y.port && x.component == y.component

/-- Candidate pair states. -/
inductive CandidatePairState
  | waiting | inProgress | succeeded | failed | frozen
deriving DecidableEq

/-- The candidate pair: ordered (local, remote) with check state,
binding-request count and nominated flag. -/
structure CandidatePair where
  Local : Candidate
  Remote : Candidate
  state : CandidatePairState
  bindingRequestCount : Nat
  nominated : Bool
deriving DecidableEq

/-- Modelled from the spec: newCandidatePair (candidatepair.go is outside the
supplied source). A fresh pair starts in the Waiting state, not nominated,
with a zero binding-request count; the controlling flag orders the priority
computation and is not stored beyond the pair role. -/
def newCandidatePair (l r : Candidate) (_isControlling : Bool) : CandidatePair :=
  { Local := l, Remote := r, state := .waiting, bindingRequestCount := 0, nominated := false }

/-- bindingRequest: (timestamp, transaction id, destination, use-candidate
flag). The 96-bit transaction id is modelled as a Nat, the destination
address as a String. -/
structure BindingRequest where
  timestamp : Nat
  transactionID : Nat
  destination : String
  isUseCandidate : Bool
deriving DecidableEq

/-- Errors surfaced by the modelled operations (declared in the package's
errors file; the constructors used by agent.go are reproduced here). -/
inductive IceErr
  | localUfragInsufficientBits
  | localPwdInsufficientBits
  | closedErr
  | addressParseFailed
deriving DecidableEq

/-- The mutable agent state owned by the task loop, restricted to the fields
the specified operations read or write. Channels, muxes, notifiers, the
selector value and logging handles carry no modelled state. `closed` models
the `done` channel being closed; `forceContact` models the one-slot
`forceCandidateContact` channel being non-empty. -/
structure Agent where
  closed : Bool
  connectionState : ConnectionState
  gatheringState : GatheringState
  isControlling : Bool
  disableActiveTCP : Bool
  mdnsMode : MulticastDNSMode
  networkTypes : List NetworkType
  disconnectedTimeout : Nat
  failedTimeout : Nat
  keepaliveInterval : Nat
  checkInterval : Nat
  localUfrag : String
  localPwd : String
  remoteUfrag : String
  remotePwd : String
  localCandidates : NetworkType → List Candidate
  remoteCandidates : NetworkType → List Candidate
  checklist : List CandidatePair
  selectedPair : Option CandidatePair
  pendingBindingRequests : List BindingRequest
  forceContact : Bool

/-- updateConnectionState: on an actual change to Failed, the agent releases
the session (mux removal and notifier enqueue are external): checklist and
pending binding requests are cleared, the selected pair unset, and all
candidates deleted; then the new state is stored. A no-op when the state is
unchanged. -/
def Agent.updateConnectionState (a : Agent) (newState : ConnectionState) : Agent :=
  if a.connectionState = newState then a
  else
    let a1 :=
      if newState = .failed then
        { a with checklist := [], pendingBindingRequests := [],
                 selectedPair := none,
                 localCandidates := fun _ => [], remoteCandidates := fun _ => [] }
      else a
    { a1 with connectionState := newState }

/-- setSelectedPair: storing nil just clears the slot; storing a pair marks
it nominated, publishes it, and moves the connection state to Connected (the
pair-change notification and the connected signal are external). -/
def Agent.setSelectedPair (a : Agent) (p : Option CandidatePair) : Agent :=
  match p with
  | none => { a with selectedPair := none }
  | some pr =>
      let pr := { pr with nominated := true }
      Agent.updateConnectionState { a with selectedPair := some pr } .connected

/-- deleteAllCandidates: closes every candidate handle (external) and empties
both candidate maps. -/
def Agent.deleteAllCandidates (a : Agent) : Agent :=
  { a with localCandidates := fun _ => [], remoteCandidates := fun _ => [] }

/-- addPair: appends a fresh pair for (local, remote) to the checklist. -/
def Agent.addPair (a : Agent) (l r : Candidate) : Agent :=
  { a with checklist := a.checklist ++ [newCandidatePair l r a.isControlling] }

/-- addRemotePassiveTCPCandidate: for each local interface IP an active-TCP
local candidate is synthesized by dialing the remote (interface enumeration
and dialing are external I/O; the resulting local candidates are supplied
here as `locals`); each is appended to the local candidate map under its own
network type and paired with the remote. -/
def Agent.addRemotePassiveTCPCandidate (a : Agent) (locals : List Candidate)
    (c : Candidate) : Agent :=
  locals.foldl
    (fun acc l =>
      Agent.addPair
        { acc with localCandidates := fun nt =>
            if nt = l.networkType then acc.localCandidates nt ++ [l]
            else acc.localCandidates nt }
        l c)
    a

/-- addRemoteCandidate (loop task): dedupe by Candidate.Equal against the
remote set of the candidate's network type; optionally synthesize active-TCP
locals for a passive-TCP remote; append the remote to its map bucket; pair a
non-passive remote with every local candidate of the same network type; wake
the check loop. -/
def Agent.addRemoteCandidate (a : Agent) (passiveTCPLocals : List Candidate)
    (c : Candidate) : Agent :=
  let set := a.remoteCandidates c.networkType
  if set.any (fun cand => cand.Equal c) then a
  else
    let tcpNetworkTypeFound := a.networkTypes.any (fun nt => nt.isTCP)
    let a1 :=
      if !a.disableActiveTCP && tcpNetworkTypeFound && c.tcpType == .passive then
        a.addRemotePassiveTCPCandidate passiveTCPLocals c
      else a
    let a2 := { a1 with remoteCandidates := fun nt =>
        if nt = c.networkType then set ++ [c] else a1.remoteCandidates nt }
    let a3 :=
      if c.tcpType ≠ .passive then
        (a2.localCandidates c.networkType).foldl (fun acc l => acc.addPair l c) a2
      else a2
    { a3 with forceContact := true }

/-- addCandidate (loop task body, for local candidates): dedupe by
Candidate.Equal (closing the duplicate's transport is external); wire and
append the candidate under its network type; pair it with every remote of
the same network type; wake the check loop (the candidate-added notification
is external). -/
def Agent.addCandidate (a : Agent) (c : Candidate) : Agent :=
  let set := a.localCandidates c.networkType
  if set.any (fun cand => cand.Equal c) then a
  else
    let a1 := { a with localCandidates := fun nt =>
        if nt = c.networkType then set ++ [c] else a.localCandidates nt }
    let a2 := (a1.remoteCandidates c.networkType).foldl (fun acc r => acc.addPair c r) a1
    { a2 with forceContact := true }

/-- The loop task run by Restart after validation: cancel gathering
(external), remove the old ufrag from the muxes (external), rotate local
credentials, blank the remote credentials, reset the gathering state, clear
checklist and pending binding requests, unset the selected pair, delete all
candidates, restart the selector (external), and move a non-New connection
state to Checking. -/
def Agent.restartTask (a : Agent) (ufrag pwd : String) : Agent :=
  let a1 := { a with
      localUfrag := ufrag, localPwd := pwd,
      remoteUfrag := "", remotePwd := "",
      gatheringState := .new,
      checklist := ([] : List CandidatePair),
      pendingBindingRequests := ([] : List BindingRequest) }
  let a2 := (a1.setSelectedPair none).deleteAllCandidates
  if a2.connectionState ≠ .new then a2.updateConnectionState .checking else a2

/-- Restart: empty credentials are replaced by generated ones (the random
generators are external; their output is passed as `genUfrag` / `genPwd`);
the effective ufrag must carry at least 24 bits (8 bits per rune) and the
pwd at least 128, checked before the loop task is enqueued; `a.run` fails on
a closed agent. Returns the error (if any) together with the resulting agent
state, which is unchanged on every error path. -/
def Agent.Restart (a : Agent) (genUfrag genPwd ufrag pwd : String) :
    Option IceErr × Agent :=
  let ufrag := if ufrag = "" then genUfrag else ufrag
  let pwd := if pwd = "" then genPwd else pwd
  if 8 * ufrag.length < 24 then (some .localUfragInsufficientBits, a)
  else if 8 * pwd.length < 128 then (some .localPwdInsufficientBits, a)
  else if a.closed then (some .closedErr, a)
  else (none, a.restartTask ufrag pwd)

/-- The task loop's shutdown path (the deferred block): delete all
candidates, unblock the started signal / close buffer / close mDNS
(external), and set the connection state to Closed. -/
def Agent.closeShutdown (a : Agent) : Agent :=
  (a.deleteAllCandidates).updateConnectionState .closed

/-- Close: a second close is a no-op; otherwise the done channel is closed
(modelled by the `closed` flag) and the task loop runs its shutdown path. -/
def Agent.close (a : Agent) : Agent :=
  if a.closed then a else Agent.closeShutdown { a with closed := true }

/-- invalidatePendingBindingRequests: drop every record at least
maxBindingRequestTimeout old (the constant's value lives outside the
supplied source, so it is the parameter `maxTO`). A record survives iff
`filterTime - timestamp < maxTO`. -/
def invalidatePendingBindingRequests (maxTO now : Nat) (l : List BindingRequest) :
    List BindingRequest :=
  l.filter (fun b => now - b.timestamp < maxTO)

/-- sendBindingRequest: expire stale records, then append the new record
(now, transaction id, destination, use-candidate flag); the STUN send is
external. -/
def Agent.sendBindingRequest (a : Agent) (maxTO now tid : Nat) (dest : String)
    (useCand : Bool) : Agent :=
  { a with pendingBindingRequests :=
      invalidatePendingBindingRequests maxTO now a.pendingBindingRequests ++
        [{ timestamp := now, transactionID := tid, destination := dest,
           isUseCandidate := useCand }] }

/-- Helper for handleInboundBindingSuccess: remove the first record with the
given transaction id, returning it (if any) and the remaining list. -/
def removeFirstMatch (tid : Nat) : List BindingRequest →
    Option BindingRequest × List BindingRequest
  | [] => (none, [])
  | b :: bs =>
      if b.transactionID = tid then (some b, bs)
      else
        let r := removeFirstMatch tid bs
        (r.1, b :: r.2)

/-- handleInboundBindingSuccess: expire stale records, then scan for the
transaction id; on a hit the record is removed and returned together with
the round-trip time (now - timestamp); otherwise no match. -/
def Agent.handleInboundBindingSuccess (a : Agent) (maxTO now tid : Nat) :
    Option (BindingRequest × Nat) × Agent :=
  let pend := invalidatePendingBindingRequests maxTO now a.pendingBindingRequests
  match removeFirstMatch tid pend with
  | (some b, rest) =>
      (some (b, now - b.timestamp), { a with pendingBindingRequests := rest })
  | (none, _) => (none, { a with pendingBindingRequests := pend })

/-- validateSelectedPair: false if no selected pair; otherwise compute
disconnectedTime = now - remote.lastReceived and totalTimeToFailure =
failedTimeout, plus disconnectedTimeout when failedTimeout is non-zero, and
drive the connection state to Failed / Disconnected / Connected. -/
def Agent.validateSelectedPair (a : Agent) (now : Nat) : Bool × Agent :=
  match a.selectedPair with
  | none => (false, a)
  | some sp =>
      let disconnectedTime := now - sp.Remote.lastReceived
      let totalTimeToFailure :=
        if a.failedTimeout ≠ 0 then a.failedTimeout + a.disconnectedTimeout
        else a.failedTimeout
      if totalTimeToFailure ≠ 0 ∧ disconnectedTime > totalTimeToFailure then
        (true, a.updateConnectionState .failed)
      else if a.disconnectedTimeout ≠ 0 ∧ disconnectedTime > a.disconnectedTimeout then
        (true, a.updateConnectionState .disconnected)
      else
        (true, a.updateConnectionState .connected)

/-- One updateInterval step of the connectivity-check loop: a non-zero
source replaces the current interval when the latter is zero or larger. -/
def updateIntervalStep (interval x : Nat) : Nat :=
  if x ≠ 0 ∧ (interval = 0 ∨ x < interval) then x else interval

/-- The tick interval recomputed on each iteration of connectivityChecks:
start from defaultKeepaliveInterval (a positive constant defined outside the
supplied source, passed as `defaultKeepalive`), then fold in the
state-appropriate rate (checkInterval while New/Checking, keepaliveInterval
while Connected/Disconnected), disconnectedTimeout, and failedTimeout. -/
def tickInterval (defaultKeepalive : Nat) (lastConnectionState : ConnectionState)
    (checkInterval keepaliveInterval disconnectedTimeout failedTimeout : Nat) : Nat :=
  let interval := defaultKeepalive
  let interval :=
    match lastConnectionState with
    | .new | .checking => updateIntervalStep interval checkInterval
    | .connected | .disconnected => updateIntervalStep interval keepaliveInterval
    | _ => interval
  let interval := updateIntervalStep interval disconnectedTimeout
  updateIntervalStep interval failedTimeout

/-- The state-appropriate rate sources named by the spec for a given last
connection state. -/
def stateRateSources (lastConnectionState : ConnectionState)
    (checkInterval keepaliveInterval : Nat) : List Nat :=
  match lastConnectionState with
  | .new | .checking => [checkInterval]
  | .connected | .disconnected => [keepaliveInterval]
  | _ => []

/-- The tick interval as the spec's words describe it: the minimum of the
non-zero values among the state-appropriate rate, disconnectedTimeout and
failedTimeout, with the default keepalive interval used only when no
non-zero source remains. -/
def specTickInterval (defaultKeepalive : Nat) (lastConnectionState : ConnectionState)
    (checkInterval keepaliveInterval disconnectedTimeout failedTimeout : Nat) : Nat :=
  let sources := stateRateSources lastConnectionState checkInterval keepaliveInterval ++
    [disconnectedTimeout, failedTimeout]
  match sources.filter (fun x => x ≠ 0) with
  | [] => defaultKeepalive
  | x :: xs => xs.foldl min x

/-- AddRemoteCandidate (public API): nil candidates are accepted and ignored
before anything else runs; active-TCP candidates are ignored; a `.local`
host candidate is dropped when mDNS is disabled and otherwise resolved
asynchronously (external I/O) before the loop task is enqueued; every other
candidate is handed to the loop task `addRemoteCandidate` from a goroutine
whose run error on a closed agent is only logged. Returns the synchronous
error, the agent after any loop task ran, and whether a loop task was
dispatched. -/
def Agent.AddRemoteCandidate (a : Agent) (passiveTCPLocals : List Candidate)
    (c : Option Candidate) : Option IceErr × Agent × Bool :=
  match c with
  | none => (none, a, false)
  | some c =>
      if c.tcpType = .active then (none, a, false)
      else if c.candidateType = .host && c.address.endsWith ".local" then
        if a.mdnsMode = .disabled then (none, a, false)
        else (none, a, true)
      else
        if a.closed then (none, a, true)
        else (none, a.addRemoteCandidate passiveTCPLocals c, true)

/-! The NAT 1:1 external-IP mapper (the second supplied source file). Go's
`net.IP` is modelled as a value carrying its canonical string (the map keys
are produced by `ip.String()`) and its family; `net.ParseIP` together with
`To4` is Go-stdlib external code, modelled as a parse oracle
`String → Option GoIP`. -/

/-- A parsed IP address: its canonical string form and whether it is IPv4. -/
structure GoIP where
  addr : String
  v4 : Bool
deriving DecidableEq

/-- Errors of the external-IP mapper. -/
inductive MapErr
  | invalidNAT1To1IPMapping
  | externalMappedIPNotFound
  | unsupportedNAT1To1IPCandidateType
deriving DecidableEq

/-- validateIPString: parse the string (failing with
ErrInvalidNAT1To1IPMapping) and report whether it is IPv4. -/
def validateIPString (parse : String → Option GoIP) (ipStr : String) :
    Except MapErr (GoIP × Bool) :=
  match parse ipStr with
  | none => .error .invalidNAT1To1IPMapping
  | some ip => .ok (ip, ip.v4)

/-- ipMapping: per-family mapping state: an optional sole external IP, the
local-to-external table (keyed by the local IP's string), and the valid
flag, false until any external IP is set. -/
structure ipMapping where
  ipSole : Option GoIP
  ipMap : List (String × GoIP)
  valid : Bool
deriving DecidableEq

/-- setSoleIP: rejected when a sole IP or any table entry already exists. -/
def ipMapping.setSoleIP (m : ipMapping) (ip : GoIP) : Except MapErr ipMapping :=
  if m.ipSole.isSome ∨ 0 < m.ipMap.length then .error .invalidNAT1To1IPMapping
  else .ok { m with ipSole := some ip, valid := true }

/-- addIPMapping: rejected when a sole IP exists or the local IP is already
mapped. -/
def ipMapping.addIPMapping (m : ipMapping) (locIP extIP : GoIP) :
    Except MapErr ipMapping :=
  if m.ipSole.isSome then .error .invalidNAT1To1IPMapping
  else if (m.ipMap.lookup locIP.addr).isSome then .error .invalidNAT1To1IPMapping
  else .ok { m with ipMap := m.ipMap ++ [(locIP.addr, extIP)], valid := true }

/-- ipMapping.findExternalIP: when the family holds no external IP at all
the local IP is returned unchanged; otherwise the sole IP when configured,
else the table entry, failing with ErrExternalMappedIPNotFound. -/
def ipMapping.findExternalIP (m : ipMapping) (locIP : GoIP) : Except MapErr GoIP :=
  if m.valid = false then .ok locIP
  else
    match m.ipSole with
    | some s => .ok s
    | none =>
        match m.ipMap.lookup locIP.addr with
        | some e => .ok e
        | none => .error .externalMappedIPNotFound

/-- externalIPMapper: one mapping per family plus the candidate type the
mapped addresses produce. -/
structure externalIPMapper where
  ipv4Mapping : ipMapping
  ipv6Mapping : ipMapping
  candidateType : CandidateType
deriving DecidableEq

/-- strings.Split from the Go standard library (external code), modelled for
a one-character separator: split the character list on the separator. Agrees
with Go on every input, including the empty string (both yield one empty
part). -/
def goSplit (sep : Char) (s : String) : List String :=
  (s.toList.splitOn sep).map (fun cs => String.mk cs)

/-- One iteration of newExternalIPMapper's loop over the configured
strings: split on "/", parse, and install either a sole external IP or an
explicit mapping into the matching family. -/
def externalIPMapperStep (parse : String → Option GoIP)
    (mapper : externalIPMapper) (extIPStr : String) :
    Except MapErr externalIPMapper := do
  let ipPair := goSplit '/' extIPStr
  if ipPair.length = 0 ∨ 2 < ipPair.length then
    throw MapErr.invalidNAT1To1IPMapping
  else do
    let r ← validateIPString parse (ipPair.headD "")
    let extIP := r.1
    let isExtIPv4 := r.2
    if ipPair.length = 1 then
      if isExtIPv4 then do
        let m4 ← mapper.ipv4Mapping.setSoleIP extIP
        pure { mapper with ipv4Mapping := m4 }
      else do
        let m6 ← mapper.ipv6Mapping.setSoleIP extIP
        pure { mapper with ipv6Mapping := m6 }
    else do
      let r2 ← validateIPString parse (ipPair.getD 1 "")
      let locIP := r2.1
      let isLocIPv4 := r2.2
      if isExtIPv4 then
        if !isLocIPv4 then throw MapErr.invalidNAT1To1IPMapping
        else do
          let m4 ← mapper.ipv4Mapping.addIPMapping locIP extIP
          pure { mapper with ipv4Mapping := m4 }
      else
        if isLocIPv4 then throw MapErr.invalidNAT1To1IPMapping
        else do
          let m6 ← mapper.ipv6Mapping.addIPMapping locIP extIP
          pure { mapper with ipv6Mapping := m6 }

/-- newExternalIPMapper: an empty list yields no mapper; the candidate type
defaults to host and must be host or server-reflexive; each entry is either
"ExtIP" (sole external IP for its family) or "ExtIP/LocIP" (explicit
mapping, families must match). -/
def newExternalIPMapper (parse : String → Option GoIP)
    (candidateType : CandidateType) (ips : List String) :
    Except MapErr (Option externalIPMapper) :=
  if ips.length = 0 then .ok none
  else
    match
      (if candidateType = .unspecified then .ok CandidateType.host
       else if candidateType = .host ∨ candidateType = .srflx then .ok candidateType
       else .error .unsupportedNAT1To1IPCandidateType :
        Except MapErr CandidateType) with
    | .error e => .error e
    | .ok ct =>
        let init : externalIPMapper :=
          { ipv4Mapping := { ipSole := none, ipMap := [], valid := false },
            ipv6Mapping := { ipSole := none, ipMap := [], valid := false },
            candidateType := ct }
        (ips.foldlM (externalIPMapperStep parse) init).map some

/-- externalIPMapper.findExternalIP: parse the local address, then look the
IP up in the mapping of its own family. -/
def externalIPMapper.findExternalIP (parse : String → Option GoIP)
    (m : externalIPMapper) (localIPStr : String) : Except MapErr GoIP :=
  match validateIPString parse localIPStr with
  | .error e => .error e
  | .ok (locIP, isLocIPv4) =>
      if isLocIPv4 then m.ipv4Mapping.findExternalIP locIP
      else m.ipv6Mapping.findExternalIP locIP

/-! Concrete values used by witnesses and counterexamples. -/

/-- A concrete local host candidate. -/
def candL : Candidate :=
  { candidateType := .host, networkType := .udp4, tcpType := .unspecified,
    address := "10.0.0.1", port := 54321, component := 1, foundation := "fL",
    lastSent := 0, lastReceived := 0 }

/-- A concrete remote host candidate. -/
def candR : Candidate :=
  { candidateType := .host, networkType := .udp4, tcpType := .unspecified,
    address := "10.0.0.2", port := 54322, component := 1, foundation := "fR",
    lastSent := 0, lastReceived := 1000 }

/-- A concrete connected agent: one local and one remote UDP4 candidate,
paired in the checklist, with the pair selected. -/
def baseAgent : Agent :=
  { closed := false, connectionState := .connected, gatheringState := .complete,
    isControlling := true, disableActiveTCP := false, mdnsMode := .queryOnly,
    networkTypes := [.udp4],
    disconnectedTimeout := 5000, failedTimeout := 25000,
    keepaliveInterval := 2000, checkInterval := 200,
    localUfrag := "oldU", localPwd := "oldPwdOldPwd0000",
    remoteUfrag := "remU", remotePwd := "remPwd",
    localCandidates := fun nt => if nt = .udp4 then [candL] else [],
    remoteCandidates := fun nt => if nt = .udp4 then [candR] else [],
    checklist := [newCandidatePair candL candR true],
    selectedPair := some (newCandidatePair candL candR true),
    pendingBindingRequests := [], forceContact := false }

/-! Helper lemmas. -/

/-- Candidate.Equal is reflexive. -/
lemma Candidate.Equal_self (c : Candidate) : c.Equal c = true := by
  simp [Candidate.Equal]

/-- updateConnectionState always leaves the requested state in place. -/
lemma updateConnectionState_state (a : Agent) (s : ConnectionState) :
    (a.updateConnectionState s).connectionState = s := by
  unfold Agent.updateConnectionState
  split
  · next h => exact h
  · rfl

/-- restartTask written as a single record update: credentials rotated,
remote credentials blanked, session state cleared, and the connection state
moved to Checking unless it was New. -/
lemma restartTask_eq (a : Agent) (u p : String) :
    a.restartTask u p =
      { a with localUfrag := u, localPwd := p, remoteUfrag := "", remotePwd := "",
               gatheringState := .new,
               checklist := ([] : List CandidatePair),
               pendingBindingRequests := ([] : List BindingRequest),
               selectedPair := none,
               localCandidates := fun _ => [], remoteCandidates := fun _ => [],
               connectionState :=
                 if a.connectionState = .new then ConnectionState.new
                 else ConnectionState.checking } := by
  unfold Agent.restartTask Agent.setSelectedPair Agent.deleteAllCandidates
    Agent.updateConnectionState
  by_cases hc : a.connectionState = .new <;> simp [hc]

/-! ### C10: AddRemoteCandidate with a nil candidate -/

/-- C10: AddRemoteCandidate applied to a nil candidate returns a nil error
and leaves the agent entirely unchanged with no loop task dispatched; the
nil check is the first statement, so this holds for every agent, closed ones
included. -/
theorem AddRemoteCandidate_nil_noop (a : Agent) (ptl : List Candidate) :
    a.AddRemoteCandidate ptl none = (none, a, false) := rfl

/-! ### C1: Restart postconditions -/

/-- C1: every successful Restart(ufrag, pwd) with explicit (non-generated)
credentials leaves the checklist empty, the pending binding-request cache
empty, the selected pair nil, the local credentials equal to the new ufrag
and pwd, and the connection state Checking unless it was New, in which case
it stays New. -/
theorem Restart_postconditions (a a' : Agent) (gu gp u p : String)
    (hu : u ≠ "") (hp : p ≠ "")
    (h : a.Restart gu gp u p = (none, a')) :
    a'.checklist = [] ∧ a'.pendingBindingRequests = [] ∧ a'.selectedPair = none ∧
      a'.localUfrag = u ∧ a'.localPwd = p ∧
      a'.connectionState =
        (if a.connectionState = .new then ConnectionState.new
         else ConnectionState.checking) := by
  unfold Agent.Restart at h
  simp only [if_neg hu, if_neg hp] at h
  by_cases h1 : 8 * u.length < 24
  · simp [h1] at h
  · by_cases h2 : 8 * p.length < 128
    · simp [h1, h2] at h
    · by_cases h3 : a.closed
      · simp [h1, h2, h3] at h
      · simp [h1, h2, h3] at h
        subst h
        rw [restartTask_eq]
        exact ⟨rfl, rfl, rfl, rfl, rfl, rfl⟩

/-- Witness for C1: Restart on the concrete connected agent. -/
theorem Restart_postconditions_witness :
    ("newU" ≠ "" ∧ "newPwd0123456789" ≠ "") ∧
      ((baseAgent.Restart "g" "g" "newU" "newPwd0123456789").2.checklist = [] ∧
        (baseAgent.Restart "g" "g" "newU" "newPwd0123456789").2.selectedPair = none ∧
        (baseAgent.Restart "g" "g" "newU" "newPwd0123456789").2.connectionState =
          ConnectionState.checking) := by
  have h := Restart_postconditions baseAgent
    (baseAgent.Restart "g" "g" "newU" "newPwd0123456789").2 "g" "g"
    "newU" "newPwd0123456789" (by decide) (by decide) rfl
  exact ⟨⟨by decide, by decide⟩, h.1, h.2.2.1, h.2.2.2.2.2.trans (by decide)⟩

/-! ### C9: Restart blanks the remote credentials -/

/-- C9: a successful Restart also resets the remote credentials to the
empty strings, so SetRemoteCredentials must run again before inbound
messages can authenticate. -/
theorem Restart_blanks_remote_credentials (a a' : Agent) (gu gp u p : String)
    (h : a.Restart gu gp u p = (none, a')) :
    a'.remoteUfrag = "" ∧ a'.remotePwd = "" := by
  unfold Agent.Restart at h
  generalize hU : (if u = "" then gu else u) = u0 at h
  generalize hP : (if p = "" then gp else p) = p0 at h
  by_cases h1 : 8 * u0.length < 24
  · simp [h1] at h
  · by_cases h2 : 8 * p0.length < 128
    · simp [h1, h2] at h
    · by_cases h3 : a.closed
      · simp [h1, h2, h3] at h
      · simp [h1, h2, h3] at h
        subst h
        rw [restartTask_eq]
        exact ⟨rfl, rfl⟩

/-- Witness for C9: the concrete agent's remote credentials, non-empty
before the restart, are blank afterwards. -/
theorem Restart_blanks_remote_credentials_witness :
    baseAgent.remoteUfrag = "remU" ∧
      (baseAgent.Restart "g" "g" "newU" "newPwd0123456789").2.remoteUfrag = "" ∧
      (baseAgent.Restart "g" "g" "newU" "newPwd0123456789").2.remotePwd = "" := by
  have h := Restart_blanks_remote_credentials baseAgent
    (baseAgent.Restart "g" "g" "newU" "newPwd0123456789").2 "g" "g"
    "newU" "newPwd0123456789" rfl
  exact ⟨by decide, h.1, h.2⟩

/-! ### C8: Restart credential entropy validation -/

/-- C8: Restart rejects a local ufrag carrying fewer than 24 bits (8 bits
per rune) with the ufrag-insufficient-bits error and a local pwd carrying
fewer than 128 bits with the pwd-insufficient-bits error, in each case
before mutating any agent state (the returned agent is the input agent);
at 24 and 128 bits the checks pass and neither error can be returned. -/
theorem Restart_entropy_validation (a : Agent) (gu gp u p : String) :
    (u ≠ "" → 8 * u.length < 24 →
      a.Restart gu gp u p = (some .localUfragInsufficientBits, a)) ∧
    (u ≠ "" → p ≠ "" → 24 ≤ 8 * u.length → 8 * p.length < 128 →
      a.Restart gu gp u p = (some .localPwdInsufficientBits, a)) ∧
    (u ≠ "" → p ≠ "" → 24 ≤ 8 * u.length → 128 ≤ 8 * p.length →
      (a.Restart gu gp u p).1 ≠ some .localUfragInsufficientBits ∧
        (a.Restart gu gp u p).1 ≠ some .localPwdInsufficientBits) := by
  refine ⟨fun hu hlt => ?_, fun hu hp hge hlt => ?_, fun hu hp hge1 hge2 => ?_⟩
  · unfold Agent.Restart
    rw [if_neg hu]
    rw [if_pos hlt]
  · unfold Agent.Restart
    rw [if_neg hu, if_neg hp, if_neg (by omega), if_pos hlt]
  · unfold Agent.Restart
    rw [if_neg hu, if_neg hp, if_neg (by omega), if_neg (by omega)]
    split <;> simp

/-- Witness for C8, at the bit boundaries: a 16-bit ufrag (two runes; 23
bits is not expressible, entropy comes in 8-bit runes) is rejected, a
24-bit ufrag accepted; a 120-bit pwd is rejected, a 128-bit pwd accepted. -/
theorem Restart_entropy_validation_witness :
    (("ab" ≠ "" ∧ 8 * "ab".length < 24) ∧
      baseAgent.Restart "g" "g" "ab" "0123456789abcdef" =
        (some .localUfragInsufficientBits, baseAgent)) ∧
    (("abc" ≠ "" ∧ "0123456789abcde" ≠ "" ∧ 24 ≤ 8 * "abc".length ∧
        8 * "0123456789abcde".length < 128) ∧
      baseAgent.Restart "g" "g" "abc" "0123456789abcde" =
        (some .localPwdInsufficientBits, baseAgent)) ∧
    ((baseAgent.Restart "g" "g" "abc" "0123456789abcdef").1 ≠
        some .localUfragInsufficientBits ∧
      (baseAgent.Restart "g" "g" "abc" "0123456789abcdef").1 ≠
        some .localPwdInsufficientBits) := by
  refine ⟨⟨⟨by decide, by decide⟩, ?_⟩, ⟨⟨by decide, by decide, by decide, by decide⟩, ?_⟩, ?_⟩
  · exact (Restart_entropy_validation baseAgent "g" "g" "ab" "0123456789abcdef").1
      (by decide) (by decide)
  · exact (Restart_entropy_validation baseAgent "g" "g" "abc" "0123456789abcde").2.1
      (by decide) (by decide) (by decide) (by decide)
  · exact (Restart_entropy_validation baseAgent "g" "g" "abc" "0123456789abcdef").2.2
      (by decide) (by decide) (by decide) (by decide)

/-! ### C4: validateSelectedPair state transitions -/

/-- C4: with a selected pair present, validateSelectedPair reports true and
drives the connection state exactly as the spec says: Failed when
failedTimeout is non-zero and the disconnected time exceeds
disconnectedTimeout + failedTimeout, else Disconnected when
disconnectedTimeout is non-zero and the disconnected time exceeds it, else
Connected. -/
theorem validateSelectedPair_transitions (a : Agent) (now : Nat) (sp : CandidatePair)
    (h : a.selectedPair = some sp) :
    (a.validateSelectedPair now).1 = true ∧
      (a.validateSelectedPair now).2.connectionState =
        (if a.failedTimeout ≠ 0 ∧
            now - sp.Remote.lastReceived > a.disconnectedTimeout + a.failedTimeout
         then ConnectionState.failed
         else if a.disconnectedTimeout ≠ 0 ∧
            now - sp.Remote.lastReceived > a.disconnectedTimeout
         then ConnectionState.disconnected
         else ConnectionState.connected) := by
  unfold Agent.validateSelectedPair
  rw [h]
  refine ⟨?_, ?_⟩
  · dsimp only
    split_ifs <;> rfl
  · dsimp only
    have hc : ((if a.failedTimeout ≠ 0 then a.failedTimeout + a.disconnectedTimeout
          else a.failedTimeout) ≠ 0 ∧
        now - sp.Remote.lastReceived >
          (if a.failedTimeout ≠ 0 then a.failedTimeout + a.disconnectedTimeout
            else a.failedTimeout)) ↔
        (a.failedTimeout ≠ 0 ∧
          now - sp.Remote.lastReceived > a.disconnectedTimeout + a.failedTimeout) := by
      by_cases hf : a.failedTimeout = 0
      · simp [hf]
      · simp only [hf, if_pos (by omega : a.failedTimeout ≠ 0)]
        omega
    rw [if_congr hc rfl rfl]
    split_ifs <;> exact updateConnectionState_state _ _

/-- Witness for C4: the concrete connected agent, probed 6001 ms after the
remote was last heard from, moves to Disconnected. -/
theorem validateSelectedPair_transitions_witness :
    baseAgent.selectedPair = some (newCandidatePair candL candR true) ∧
      (baseAgent.validateSelectedPair 7001).2.connectionState =
        ConnectionState.disconnected := by
  have h := validateSelectedPair_transitions baseAgent 7001
    (newCandidatePair candL candR true) rfl
  exact ⟨rfl, h.2.trans (by decide)⟩

/-! ### C7: idempotence of addRemoteCandidate -/

/-- Folding addPair over a list of local candidates touches only the
checklist: the remote-candidate map is unchanged. -/
lemma pairFoldL_remote (c : Candidate) (ls : List Candidate) (a : Agent) :
    (ls.foldl (fun acc l => acc.addPair l c) a).remoteCandidates = a.remoteCandidates := by
  induction ls generalizing a with
  | nil => rfl
  | cons l ls ih => simpa only [List.foldl_cons] using ih (a.addPair l c)

/-- Folding addPair over a list of local candidates leaves the local
candidate map unchanged. -/
lemma pairFoldL_local (c : Candidate) (ls : List Candidate) (a : Agent) :
    (ls.foldl (fun acc l => acc.addPair l c) a).localCandidates = a.localCandidates := by
  induction ls generalizing a with
  | nil => rfl
  | cons l ls ih => simpa only [List.foldl_cons] using ih (a.addPair l c)

/-- addRemoteCandidate is the identity as soon as an Equal candidate is
already present in the remote bucket of the candidate's network type. -/
lemma addRemoteCandidate_mem (a : Agent) (ptl : List Candidate) (c : Candidate)
    (h : (a.remoteCandidates c.networkType).any (fun cand => cand.Equal c) = true) :
    a.addRemoteCandidate ptl c = a := by
  unfold Agent.addRemoteCandidate
  rw [if_pos h]

/-- When no Equal candidate is present, addRemoteCandidate appends the
candidate to the remote bucket of its network type. -/
lemma addRemoteCandidate_not_mem_remote (a : Agent) (ptl : List Candidate)
    (c : Candidate)
    (h : (a.remoteCandidates c.networkType).any (fun cand => cand.Equal c) = false) :
    (a.addRemoteCandidate ptl c).remoteCandidates c.networkType =
      a.remoteCandidates c.networkType ++ [c] := by
  unfold Agent.addRemoteCandidate
  rw [if_neg (by simp [h])]
  dsimp only
  split
  · rw [pairFoldL_remote]
    simp
  · simp

/-- C7: adding the same remote candidate twice on the loop yields exactly
the same agent state (remote-candidate map, checklist and all) as adding it
once: the second call finds an Equal candidate already present and returns
without changes. -/
theorem addRemoteCandidate_idempotent (a : Agent) (ptl : List Candidate)
    (c : Candidate) :
    (a.addRemoteCandidate ptl c).addRemoteCandidate ptl c =
      a.addRemoteCandidate ptl c := by
  by_cases h : (a.remoteCandidates c.networkType).any (fun cand => cand.Equal c) = true
  · rw [addRemoteCandidate_mem a ptl c h]
    exact addRemoteCandidate_mem a ptl c h
  · apply addRemoteCandidate_mem
    rw [addRemoteCandidate_not_mem_remote a ptl c (by simpa using h)]
    simp [Candidate.Equal_self]

/-! ### C3: transaction-cache round trip -/

/-- removeFirstMatch finds nothing in a list free of the transaction id and
returns the list unchanged. -/
lemma removeFirstMatch_not_mem (tid : Nat) (l : List BindingRequest)
    (h : ∀ b ∈ l, b.transactionID ≠ tid) :
    removeFirstMatch tid l = (none, l) := by
  induction l with
  | nil => rfl
  | cons b bs ih =>
      rw [removeFirstMatch, if_neg (h b (List.mem_cons_self b bs)),
        ih (fun x hx => h x (List.mem_cons_of_mem b hx))]

/-- removeFirstMatch on a list whose only record with the transaction id is
the final element removes exactly that element. -/
lemma removeFirstMatch_append (tid : Nat) (l : List BindingRequest)
    (b : BindingRequest) (h : ∀ x ∈ l, x.transactionID ≠ tid)
    (hb : b.transactionID = tid) :
    removeFirstMatch tid (l ++ [b]) = (some b, l) := by
  induction l with
  | nil => simp [removeFirstMatch, hb]
  | cons x xs ih =>
      rw [List.cons_append, removeFirstMatch,
        if_neg (h x (List.mem_cons_self x xs)),
        ih (fun y hy => h y (List.mem_cons_of_mem x hy))]

/-- Surviving invalidation means having been in the original list. -/
lemma mem_of_mem_invalidate (maxTO now : Nat) (l : List BindingRequest)
    (b : BindingRequest) (h : b ∈ invalidatePendingBindingRequests maxTO now l) :
    b ∈ l := (List.mem_filter.mp h).1

/-- handleInboundBindingSuccess finds no match when the pending cache holds
no record with the transaction id. -/
lemma handleInboundBindingSuccess_not_mem (a : Agent) (maxTO now tid : Nat)
    (h : ∀ b ∈ a.pendingBindingRequests, b.transactionID ≠ tid) :
    (a.handleInboundBindingSuccess maxTO now tid).1 = none := by
  unfold Agent.handleInboundBindingSuccess
  dsimp only
  rw [removeFirstMatch_not_mem tid _
    (fun b hb => h b (mem_of_mem_invalidate maxTO now _ b hb))]

/-- C3: a transaction id recorded by sendBindingRequest (fresh in the
pending cache) is matched by handleInboundBindingSuccess exactly once and
only within maxBindingRequestTimeout of the send: a first call inside the
window returns the stored record and its round-trip time and removes it, so
the id is gone from the cache afterwards; a call at or past the window
returns no match; and every call on a cache without the id (in particular
any repeated call after the successful one) returns no match. -/
theorem binding_transaction_roundtrip (maxTO t t1 t2 tid : Nat) (dest : String)
    (uc : Bool) (a : Agent)
    (hfresh : ∀ b ∈ a.pendingBindingRequests, b.transactionID ≠ tid) :
    (t1 - t < maxTO →
      (((a.sendBindingRequest maxTO t tid dest uc).handleInboundBindingSuccess
          maxTO t1 tid).1 =
        some ({ timestamp := t, transactionID := tid, destination := dest,
                isUseCandidate := uc }, t1 - t) ∧
        ∀ b ∈ (((a.sendBindingRequest maxTO t tid dest uc).handleInboundBindingSuccess
            maxTO t1 tid).2).pendingBindingRequests, b.transactionID ≠ tid)) ∧
    (maxTO ≤ t1 - t →
      (((a.sendBindingRequest maxTO t tid dest uc).handleInboundBindingSuccess
          maxTO t1 tid).1 = none)) ∧
    (∀ a2 : Agent, (∀ b ∈ a2.pendingBindingRequests, b.transactionID ≠ tid) →
      (a2.handleInboundBindingSuccess maxTO t2 tid).1 = none) := by
  set rec0 : BindingRequest :=
    { timestamp := t, transactionID := tid, destination := dest, isUseCandidate := uc }
    with hrec
  have hL : ∀ b ∈ invalidatePendingBindingRequests maxTO t1
      (invalidatePendingBindingRequests maxTO t a.pendingBindingRequests),
      b.transactionID ≠ tid :=
    fun b hb => hfresh b (mem_of_mem_invalidate maxTO t _ b
      (mem_of_mem_invalidate maxTO t1 _ b hb))
  refine ⟨fun hwin => ?_, fun hexp => ?_, fun a2 h2 =>
    handleInboundBindingSuccess_not_mem a2 maxTO t2 tid h2⟩
  · have hpend : invalidatePendingBindingRequests maxTO t1
        ((a.sendBindingRequest maxTO t tid dest uc).pendingBindingRequests) =
        invalidatePendingBindingRequests maxTO t1
          (invalidatePendingBindingRequests maxTO t a.pendingBindingRequests) ++
          [rec0] := by
      unfold Agent.sendBindingRequest invalidatePendingBindingRequests
      rw [List.filter_append]
      simp [hwin]
    unfold Agent.handleInboundBindingSuccess
    dsimp only
    rw [hpend, removeFirstMatch_append tid _ rec0 hL rfl]
    exact ⟨rfl, hL⟩
  · have hpend : invalidatePendingBindingRequests maxTO t1
        ((a.sendBindingRequest maxTO t tid dest uc).pendingBindingRequests) =
        invalidatePendingBindingRequests maxTO t1
          (invalidatePendingBindingRequests maxTO t a.pendingBindingRequests) := by
      unfold Agent.sendBindingRequest invalidatePendingBindingRequests
      rw [List.filter_append]
      simp [Nat.not_lt.mpr hexp]
    unfold Agent.handleInboundBindingSuccess
    dsimp only
    rw [hpend, removeFirstMatch_not_mem tid _ hL]

/-- Witness for C3: a concrete send at t=1000 matched at t=1500 (inside a
4000 ms window) returns the record with a 500 ms round-trip time. -/
theorem binding_transaction_roundtrip_witness :
    (∀ b ∈ baseAgent.pendingBindingRequests, b.transactionID ≠ 42) ∧
      (1500 - 1000 < 4000 ∧
        ((baseAgent.sendBindingRequest 4000 1000 42 "addrA" false).handleInboundBindingSuccess
            4000 1500 42).1 =
          some ({ timestamp := 1000, transactionID := 42, destination := "addrA",
                  isUseCandidate := false }, 1500 - 1000)) := by
  refine ⟨by decide, by decide, ?_⟩
  exact ((binding_transaction_roundtrip 4000 1000 1500 0 42 "addrA" false baseAgent
    (by decide)).1 (by decide)).1

/-! ### C6: tick interval of the connectivity-check loop -/

/-- One updateInterval step with a non-zero running interval: ignore a zero
source, otherwise take the minimum. -/
lemma updateIntervalStep_of_ne_zero (i x : Nat) (hi : i ≠ 0) :
    updateIntervalStep i x = if x = 0 then i else min i x := by
  unfold updateIntervalStep
  split_ifs <;> omega

/-- Folding updateIntervalStep from a non-zero start equals folding Nat.min
over the non-zero sources. -/
lemma foldl_updateIntervalStep (xs : List Nat) (d : Nat) (hd : d ≠ 0) :
    xs.foldl updateIntervalStep d =
      (xs.filter (fun x => x ≠ 0)).foldl min d := by
  induction xs generalizing d with
  | nil => rfl
  | cons x xs ih =>
      rw [List.foldl_cons, updateIntervalStep_of_ne_zero _ _ hd]
      by_cases hx : x = 0
      · rw [if_pos hx, ih d hd, List.filter_cons]
        simp [hx]
      · rw [if_neg hx, ih _ (by omega), List.filter_cons]
        simp [hx, List.foldl_cons]

/-- C6 counterexample: with the positive default keepalive interval (2000 ms
in the source tree) and state Connected, keepaliveInterval 4000,
disconnectedTimeout 5000 and failedTimeout 25000, the loop computes 2000 —
the default caps the interval — while the claim's minimum over the non-zero
sources is 4000. -/
theorem tickInterval_claim_counterexample :
    tickInterval 2000 .connected 200 4000 5000 25000 = 2000 ∧
      specTickInterval 2000 .connected 200 4000 5000 25000 = 4000 ∧
      tickInterval 2000 .connected 200 4000 5000 25000 ≠
        specTickInterval 2000 .connected 200 4000 5000 25000 := by decide

/-- C6 amended: on every iteration the tick interval is the minimum of the
default keepalive interval together with the non-zero values among the
state-appropriate rate (checkInterval while New/Checking, keepaliveInterval
while Connected/Disconnected), disconnectedTimeout and failedTimeout: the
(non-zero) default always participates in the minimum, not only as a
fallback when no non-zero source remains. -/
theorem tickInterval_min_includes_default (d : Nat) (st : ConnectionState)
    (ci ki dt ft : Nat) (hd : d ≠ 0) :
    tickInterval d st ci ki dt ft =
      ((stateRateSources st ci ki ++ [dt, ft]).filter
          (fun x => x ≠ 0)).foldl min d := by
  rw [← foldl_updateIntervalStep _ d hd]
  cases st <;> rfl

/-- Witness for C6's amended theorem at the counterexample's inputs. -/
theorem tickInterval_min_includes_default_witness :
    (2000 : Nat) ≠ 0 ∧
      tickInterval 2000 .connected 200 4000 5000 25000 =
        ((stateRateSources .connected 200 4000 ++ [5000, 25000]).filter
            (fun x => x ≠ 0)).foldl min 2000 :=
  ⟨by decide, tickInterval_min_includes_default 2000 .connected 200 4000 5000 25000
    (by decide)⟩

/-! ### C5: external-IP mapper lookup -/

/-- The family mapping (IPv4 or IPv6) that findExternalIP consults for a
parsed local IP. -/
def familyMapping (m : externalIPMapper) (ip : GoIP) : ipMapping :=
  if ip.v4 then m.ipv4Mapping else m.ipv6Mapping

/-- Case analysis of ipMapping.findExternalIP: with a valid family mapping,
the sole IP wins, else the table entry, else an error; with no external IP
configured for the family the local IP itself is returned. -/
lemma ipMapping_findExternalIP_cases (m : ipMapping) (loc : GoIP) :
    (m.valid = true →
      (∀ e, m.ipSole = some e → m.findExternalIP loc = .ok e) ∧
      (m.ipSole = none →
        (∀ e, m.ipMap.lookup loc.addr = some e → m.findExternalIP loc = .ok e) ∧
        (m.ipMap.lookup loc.addr = none →
          m.findExternalIP loc = .error .externalMappedIPNotFound))) ∧
    (m.valid = false → m.findExternalIP loc = .ok loc) := by
  unfold ipMapping.findExternalIP
  refine ⟨fun hv => ⟨fun e he => ?_, fun hn => ⟨fun e he => ?_, fun hn2 => ?_⟩⟩,
    fun hv => ?_⟩
  · rw [if_neg (by simp [hv]), he]
  · rw [if_neg (by simp [hv]), hn, he]
  · rw [if_neg (by simp [hv]), hn, hn2]
  · rw [if_pos hv]

/-- findExternalIP dispatches the parsed local IP to the mapping of its own
family. -/
lemma findExternalIP_dispatch (parse : String → Option GoIP)
    (m : externalIPMapper) (s : String) (ip : GoIP) (h : parse s = some ip) :
    externalIPMapper.findExternalIP parse m s =
      (familyMapping m ip).findExternalIP ip := by
  unfold externalIPMapper.findExternalIP validateIPString familyMapping
  rw [h]
  dsimp only
  cases hb : ip.v4 <;> simp [hb]

/-- C5 amended: for a lookup on a parseable address, the mapping of the
address's family decides the result: when that family is valid (has at
least one configured external IP), a configured sole IP is returned,
otherwise the explicit per-local-IP mapping, and the lookup fails with an
error when no explicit mapping exists; but when the family holds no
external IP at all (valid = false) the lookup does not fail — it returns
the local IP itself. -/
theorem findExternalIP_characterized (parse : String → Option GoIP)
    (m : externalIPMapper) (s : String) (ip : GoIP) (h : parse s = some ip) :
    ((familyMapping m ip).valid = true →
      (∀ e, (familyMapping m ip).ipSole = some e →
        externalIPMapper.findExternalIP parse m s = .ok e) ∧
      ((familyMapping m ip).ipSole = none →
        (∀ e, (familyMapping m ip).ipMap.lookup ip.addr = some e →
          externalIPMapper.findExternalIP parse m s = .ok e) ∧
        ((familyMapping m ip).ipMap.lookup ip.addr = none →
          externalIPMapper.findExternalIP parse m s =
            .error .externalMappedIPNotFound))) ∧
    ((familyMapping m ip).valid = false →
      externalIPMapper.findExternalIP parse m s = .ok ip) := by
  rw [findExternalIP_dispatch parse m s ip h]
  exact ipMapping_findExternalIP_cases (familyMapping m ip) ip

/-- A parse oracle for the concrete inputs below: the IPv4 literal 1.2.3.4
and the IPv6 literal ::1. -/
def cexParse : String → Option GoIP := fun s =>
  if s = "1.2.3.4" then some { addr := "1.2.3.4", v4 := true }
  else if s = "::1" then some { addr := "::1", v4 := false }
  else none

/-- The mapper produced by the NAT1To1 configuration ["1.2.3.4"]: a sole
IPv4 external IP, the IPv6 family left unconfigured. -/
def cexMapper : externalIPMapper :=
  { ipv4Mapping :=
      { ipSole := some { addr := "1.2.3.4", v4 := true }, ipMap := [], valid := true },
    ipv6Mapping := { ipSole := none, ipMap := [], valid := false },
    candidateType := .host }

/-- C5 counterexample: the mapper built from the sole-IPv4 configuration
["1.2.3.4"] has no sole IPv6 IP and no explicit IPv6 mapping for ::1, yet
findExternalIP on "::1" succeeds, returning the local IP itself — where the
claim requires the lookup to fail with an error. -/
theorem findExternalIP_unconfigured_family_counterexample :
    newExternalIPMapper cexParse .unspecified ["1.2.3.4"] = .ok (some cexMapper) ∧
      cexMapper.ipv6Mapping.ipSole = none ∧
      cexMapper.ipv6Mapping.ipMap.lookup "::1" = none ∧
      externalIPMapper.findExternalIP cexParse cexMapper "::1" =
        .ok { addr := "::1", v4 := false } :=
  ⟨rfl, rfl, rfl, rfl⟩

/-- Witness for C5's amended theorem: the IPv4 lookup on the same mapper
returns the sole configured external IP. -/
theorem findExternalIP_characterized_witness :
    cexParse "1.2.3.4" = some { addr := "1.2.3.4", v4 := true } ∧
      (familyMapping cexMapper { addr := "1.2.3.4", v4 := true }).valid = true ∧
      externalIPMapper.findExternalIP cexParse cexMapper "1.2.3.4" =
        .ok { addr := "1.2.3.4", v4 := true } := by
  refine ⟨rfl, rfl, ?_⟩
  exact ((findExternalIP_characterized cexParse cexMapper "1.2.3.4"
    { addr := "1.2.3.4", v4 := true } rfl).1 rfl).1
    { addr := "1.2.3.4", v4 := true } rfl

/-! ### C2: checklist endpoints live in the candidate maps -/

/-- A candidate is present (in some bucket) of a candidate map. -/
def inCandidateMap (f : NetworkType → List Candidate) (c : Candidate) : Prop :=
  ∃ nt, c ∈ f nt

instance (f : NetworkType → List Candidate) (c : Candidate) :
    Decidable (inCandidateMap f c) :=
  inferInstanceAs (Decidable (∃ nt, c ∈ f nt))

/-- The claimed invariant: every pair in the checklist has its local
endpoint in the local candidate map and its remote endpoint in the remote
candidate map. -/
def checklistCandidatesInv (a : Agent) : Prop :=
  ∀ p ∈ a.checklist,
    inCandidateMap a.localCandidates p.Local ∧
      inCandidateMap a.remoteCandidates p.Remote

instance (a : Agent) : Decidable (checklistCandidatesInv a) :=
  inferInstanceAs (Decidable (∀ p ∈ a.checklist,
    inCandidateMap a.localCandidates p.Local ∧
      inCandidateMap a.remoteCandidates p.Remote))

/-- Presence in a map survives appending a candidate to one bucket. -/
lemma inCandidateMap_bump (f : NetworkType → List Candidate) (c x : Candidate)
    (h : inCandidateMap f x) :
    inCandidateMap
      (fun nt => if nt = c.networkType then f c.networkType ++ [c] else f nt) x := by
  obtain ⟨nt, hnt⟩ := h
  by_cases he : nt = c.networkType
  · subst he
    exact ⟨c.networkType, by simpa using List.mem_append_left [c] hnt⟩
  · exact ⟨nt, by simpa [he] using hnt⟩

/-- Folding addPair (locals against a fixed remote) preserves the
isControlling flag. -/
lemma pairFoldL_isControlling (c : Candidate) (ls : List Candidate) (a : Agent) :
    (ls.foldl (fun acc l => acc.addPair l c) a).isControlling = a.isControlling := by
  induction ls generalizing a with
  | nil => rfl
  | cons l ls ih => simpa only [List.foldl_cons] using ih (a.addPair l c)

/-- Every pair present after folding addPair (locals against a fixed
remote) was already present or pairs one of the folded locals with the
remote. -/
lemma pairFoldL_checklist (c : Candidate) (ls : List Candidate) (a : Agent) :
    ∀ p ∈ (ls.foldl (fun acc l => acc.addPair l c) a).checklist,
      p ∈ a.checklist ∨ ∃ l ∈ ls, p = newCandidatePair l c a.isControlling := by
  induction ls generalizing a with
  | nil => exact fun p hp => Or.inl hp
  | cons l ls ih =>
      intro p hp
      rw [List.foldl_cons] at hp
      rcases ih (a.addPair l c) p hp with h1 | ⟨l', hl', hpe⟩
      · rcases List.mem_append.mp h1 with h2 | h2
        · exact Or.inl h2
        · exact Or.inr ⟨l, List.mem_cons_self l ls, by simpa using h2⟩
      · exact Or.inr ⟨l', List.mem_cons_of_mem l hl', hpe⟩

/-- Folding addPair (remotes against a fixed local) preserves the local
candidate map. -/
lemma pairFoldR_local (c : Candidate) (ls : List Candidate) (a : Agent) :
    (ls.foldl (fun acc r => acc.addPair c r) a).localCandidates = a.localCandidates := by
  induction ls generalizing a with
  | nil => rfl
  | cons r ls ih => simpa only [List.foldl_cons] using ih (a.addPair c r)

/-- Folding addPair (remotes against a fixed local) preserves the remote
candidate map. -/
lemma pairFoldR_remote (c : Candidate) (ls : List Candidate) (a : Agent) :
    (ls.foldl (fun acc r => acc.addPair c r) a).remoteCandidates = a.remoteCandidates := by
  induction ls generalizing a with
  | nil => rfl
  | cons r ls ih => simpa only [List.foldl_cons] using ih (a.addPair c r)

/-- Every pair present after folding addPair (remotes against a fixed
local) was already present or pairs the local with one of the folded
remotes. -/
lemma pairFoldR_checklist (c : Candidate) (ls : List Candidate) (a : Agent) :
    ∀ p ∈ (ls.foldl (fun acc r => acc.addPair c r) a).checklist,
      p ∈ a.checklist ∨ ∃ r ∈ ls, p = newCandidatePair c r a.isControlling := by
  induction ls generalizing a with
  | nil => exact fun p hp => Or.inl hp
  | cons r ls ih =>
      intro p hp
      rw [List.foldl_cons] at hp
      rcases ih (a.addPair c r) p hp with h1 | ⟨r', hr', hpe⟩
      · rcases List.mem_append.mp h1 with h2 | h2
        · exact Or.inl h2
        · exact Or.inr ⟨r, List.mem_cons_self r ls, by simpa using h2⟩
      · exact Or.inr ⟨r', List.mem_cons_of_mem r hr', hpe⟩

/-- addRemotePassiveTCPCandidate does not touch the remote candidate map. -/
lemma ptcp_remote (c : Candidate) (ls : List Candidate) (a : Agent) :
    (a.addRemotePassiveTCPCandidate ls c).remoteCandidates = a.remoteCandidates := by
  unfold Agent.addRemotePassiveTCPCandidate
  induction ls generalizing a with
  | nil => rfl
  | cons l ls ih => rw [List.foldl_cons]; exact ih _

/-- addRemotePassiveTCPCandidate preserves the isControlling flag. -/
lemma ptcp_isControlling (c : Candidate) (ls : List Candidate) (a : Agent) :
    (a.addRemotePassiveTCPCandidate ls c).isControlling = a.isControlling := by
  unfold Agent.addRemotePassiveTCPCandidate
  induction ls generalizing a with
  | nil => rfl
  | cons l ls ih => rw [List.foldl_cons]; exact ih _

/-- addRemotePassiveTCPCandidate only grows the local candidate map. -/
lemma ptcp_local_grow (c : Candidate) (ls : List Candidate) (a : Agent)
    (nt : NetworkType) (x : Candidate) :
    x ∈ a.localCandidates nt →
      x ∈ (a.addRemotePassiveTCPCandidate ls c).localCandidates nt := by
  unfold Agent.addRemotePassiveTCPCandidate
  induction ls generalizing a with
  | nil => exact id
  | cons l ls ih =>
      intro hx
      rw [List.foldl_cons]
      apply ih
      show x ∈ (if nt = l.networkType then a.localCandidates nt ++ [l]
        else a.localCandidates nt)
      split
      · exact List.mem_append_left _ hx
      · exact hx

/-- Every pair present after addRemotePassiveTCPCandidate was already
present or pairs one of the synthesized locals — itself recorded in the
resulting local candidate map — with the remote. -/
lemma ptcp_checklist (c : Candidate) (ls : List Candidate) (a : Agent) :
    ∀ p ∈ (a.addRemotePassiveTCPCandidate ls c).checklist,
      p ∈ a.checklist ∨ ∃ l ∈ ls, p = newCandidatePair l c a.isControlling ∧
        l ∈ (a.addRemotePassiveTCPCandidate ls c).localCandidates l.networkType := by
  unfold Agent.addRemotePassiveTCPCandidate
  induction ls generalizing a with
  | nil => exact fun p hp => Or.inl hp
  | cons l ls ih =>
      intro p hp
      rw [List.foldl_cons] at hp ⊢
      rcases ih _ p hp with h1 | ⟨l', hl', hpe, hmem⟩
      · rcases List.mem_append.mp h1 with h2 | h2
        · exact Or.inl h2
        · refine Or.inr ⟨l, List.mem_cons_self l ls, by simpa using h2, ?_⟩
          exact ptcp_local_grow c ls _ l.networkType l (by simp [Agent.addPair])
      · exact Or.inr ⟨l', List.mem_cons_of_mem l hl', hpe, hmem⟩

/-- updateConnectionState preserves the checklist invariant: a transition to
Failed clears the checklist together with the candidate maps, and every
other transition touches neither. -/
lemma inv_updateConnectionState (a : Agent) (s : ConnectionState)
    (h : checklistCandidatesInv a) :
    checklistCandidatesInv (a.updateConnectionState s) := by
  unfold Agent.updateConnectionState
  split
  · exact h
  · dsimp only
    split
    · intro p hp
      simp at hp
    · exact h

/-- validateSelectedPair preserves the checklist invariant. -/
lemma inv_validateSelectedPair (a : Agent) (now : Nat)
    (h : checklistCandidatesInv a) :
    checklistCandidatesInv (a.validateSelectedPair now).2 := by
  unfold Agent.validateSelectedPair
  cases hsel : a.selectedPair with
  | none => exact h
  | some sp =>
      dsimp only
      split_ifs <;> exact inv_updateConnectionState a _ h

/-- Restart preserves the checklist invariant: a failed validation leaves
the agent unchanged and a successful restart empties the checklist. -/
lemma inv_Restart (a : Agent) (gu gp u p : String)
    (h : checklistCandidatesInv a) :
    checklistCandidatesInv (a.Restart gu gp u p).2 := by
  unfold Agent.Restart
  dsimp only
  split_ifs <;>
    first
      | exact h
      | (intro q hq; simp [restartTask_eq] at hq)

/-- addCandidate preserves the checklist invariant: the new local candidate
is appended to its bucket before being paired with remotes already in the
remote map. -/
lemma inv_addCandidate (a : Agent) (c : Candidate)
    (h : checklistCandidatesInv a) :
    checklistCandidatesInv (a.addCandidate c) := by
  unfold checklistCandidatesInv Agent.addCandidate
  dsimp only
  split
  · exact h
  · intro p hp
    rcases pairFoldR_checklist c _ _ p hp with h1 | ⟨r, hr, hpe⟩
    · obtain ⟨hpl, hpr⟩ := h p h1
      refine ⟨?_, ?_⟩
      · rw [pairFoldR_local]
        exact inCandidateMap_bump a.localCandidates c p.Local hpl
      · rw [pairFoldR_remote]
        exact hpr
    · subst hpe
      refine ⟨?_, ?_⟩
      · rw [pairFoldR_local]
        exact ⟨c.networkType, by simp [newCandidatePair]⟩
      · rw [pairFoldR_remote]
        exact ⟨c.networkType, hr⟩

/-- addRemoteCandidate preserves the checklist invariant: the new remote
candidate is appended to its bucket, any synthesized active-TCP locals are
recorded in the local map before their pairs are added, and ordinary
pairing draws locals from the local map. -/
lemma inv_addRemoteCandidate (a : Agent) (ptl : List Candidate) (c : Candidate)
    (h : checklistCandidatesInv a) :
    checklistCandidatesInv (a.addRemoteCandidate ptl c) := by
  by_cases hmem : (a.remoteCandidates c.networkType).any (fun cand => cand.Equal c) = true
  · rw [addRemoteCandidate_mem a ptl c hmem]
    exact h
  · unfold checklistCandidatesInv Agent.addRemoteCandidate
    rw [if_neg hmem]
    dsimp only
    by_cases hcp : c.tcpType = TCPType.passive
    · rw [if_neg (show ¬c.tcpType ≠ TCPType.passive by simp [hcp])]
      by_cases htcp : (!a.disableActiveTCP &&
          (a.networkTypes.any fun nt => nt.isTCP) && c.tcpType == TCPType.passive) = true
      · rw [if_pos htcp]
        intro p hp
        rcases ptcp_checklist c ptl a p hp with h1 | ⟨l, hl, hpe, hmeml⟩
        · obtain ⟨hpl, hpr⟩ := h p h1
          refine ⟨?_, ?_⟩
          · obtain ⟨nt, hx⟩ := hpl
            exact ⟨nt, ptcp_local_grow c ptl a nt p.Local hx⟩
          · rw [ptcp_remote]
            exact inCandidateMap_bump a.remoteCandidates c p.Remote hpr
        · subst hpe
          refine ⟨⟨l.networkType, hmeml⟩, ?_⟩
          exact ⟨c.networkType, by simp [newCandidatePair]⟩
      · rw [if_neg htcp]
        intro p hp
        obtain ⟨hpl, hpr⟩ := h p hp
        exact ⟨hpl, inCandidateMap_bump a.remoteCandidates c p.Remote hpr⟩
    · rw [if_neg (show ¬((!a.disableActiveTCP &&
          (a.networkTypes.any fun nt => nt.isTCP) && c.tcpType == TCPType.passive) = true)
          by simp [hcp])]
      rw [if_pos hcp]
      intro p hp
      rcases pairFoldL_checklist c _ _ p hp with h1 | ⟨l, hl, hpe⟩
      · obtain ⟨hpl, hpr⟩ := h p h1
        refine ⟨?_, ?_⟩
        · rw [pairFoldL_local]
          exact hpl
        · rw [pairFoldL_remote]
          exact inCandidateMap_bump a.remoteCandidates c p.Remote hpr
      · subst hpe
        refine ⟨?_, ?_⟩
        · rw [pairFoldL_local]
          exact ⟨c.networkType, hl⟩
        · rw [pairFoldL_remote]
          exact ⟨c.networkType, by simp [newCandidatePair]⟩

/-- C2 counterexample: on the concrete connected agent with one checklist
pair, Close's shutdown path deletes all candidates but leaves the checklist
untouched, so afterwards the pair's endpoints are in neither candidate map
and the invariant fails — the claim that Close preserves it is false. -/
theorem close_breaks_checklist_inv :
    checklistCandidatesInv baseAgent ∧
      baseAgent.close.checklist ≠ [] ∧
      ¬ checklistCandidatesInv baseAgent.close := by decide

/-- C2 amended: the quiescent-state invariant — every checklist pair has its
local endpoint in the local candidate map and its remote endpoint in the
remote candidate map — is preserved by addRemoteCandidate, addCandidate,
updateConnectionState (including the transition to Failed),
validateSelectedPair and Restart; it is not preserved by Close, whose
shutdown path deletes all candidates without clearing the checklist. -/
theorem checklist_inv_preserved_amended :
    (∀ (a : Agent) (ptl : List Candidate) (c : Candidate),
      checklistCandidatesInv a → checklistCandidatesInv (a.addRemoteCandidate ptl c)) ∧
    (∀ (a : Agent) (c : Candidate),
      checklistCandidatesInv a → checklistCandidatesInv (a.addCandidate c)) ∧
    (∀ (a : Agent) (s : ConnectionState),
      checklistCandidatesInv a → checklistCandidatesInv (a.updateConnectionState s)) ∧
    (∀ (a : Agent) (now : Nat),
      checklistCandidatesInv a → checklistCandidatesInv (a.validateSelectedPair now).2) ∧
    (∀ (a : Agent) (gu gp u p : String),
      checklistCandidatesInv a → checklistCandidatesInv (a.Restart gu gp u p).2) :=
  ⟨inv_addRemoteCandidate, inv_addCandidate, inv_updateConnectionState,
    inv_validateSelectedPair, inv_Restart⟩

/-- Witness for C2's amended theorem: the invariant holds on the concrete
agent and is preserved when a fresh remote candidate is added. -/
theorem checklist_inv_preserved_amended_witness :
    checklistCandidatesInv baseAgent ∧
      checklistCandidatesInv (baseAgent.addRemoteCandidate [] candL) :=
  ⟨by decide, checklist_inv_preserved_amended.1 baseAgent [] candL (by decide)⟩

end IceSpec
